import Mathlib

/-!
Shallow embedding of `unzip_and_modify_csv.py` (Air_quality_project).

Strings are modelled as `List Char` (`Str`); the Python string operations used
by the script (`split`, `strip`, `endswith`, `replace`, `os.path.basename`,
`os.path.join`, slicing) are re-implemented structurally.  External effects
(S3 download/upload/delete, gzip decompression, `pandas.read_csv`, the pivot)
are driven by an oracle `Env` that fixes the outcome of each external call;
the observable side effects (failure ledger, local scratch files, remote
objects, upload attempts, sleeps, invocations) are threaded through a state
`St`.  A Python exception is an `Except.error` carrying the state at raise
time; `uuid.uuid4()` scratch names are modelled by a fresh-name counter.
-/

set_option maxHeartbeats 1000000

abbrev Str := List Char

def str (s : String) : Str := s.data

/-- Python `s.split(sep)` for a one-character separator: no collapsing of
repeated separators, and splitting the empty string yields `[""]`. -/
def splitOnChar (sep : Char) : Str → List Str
  | [] => [[]]
  | c :: cs =>
    match splitOnChar sep cs with
    | [] => [[]]
    | g :: gs => if c = sep then [] :: g :: gs else (c :: g) :: gs

/-- Python `os.path.basename`: the part after the last slash. -/
def basename (s : Str) : Str :=
  (s.reverse.takeWhile (fun c => c ≠ '/')).reverse

/-- Python `s.replace(pat, rep)` — leftmost, non-overlapping, every
occurrence — for a non-empty pattern, with explicit fuel `s.length`. -/
def replaceAllAux (pat rep : Str) : Nat → Str → Str
  | _, [] => []
  | 0, s => s
  | fuel + 1, c :: cs =>
    if pat.isPrefixOf (c :: cs) then
      rep ++ replaceAllAux pat rep fuel ((c :: cs).drop pat.length)
    else
      c :: replaceAllAux pat rep fuel cs

def replaceAll (pat rep s : Str) : Str := replaceAllAux pat rep s.length s

def isPySpace (c : Char) : Bool :=
  c = ' ' || c = '\t' || c = '\n' || c = '\r' || c = '\x0b' || c = '\x0c'

/-- Python `s.strip()` (ASCII whitespace suffices for the keys at hand). -/
def pyStrip (s : Str) : Str :=
  ((s.dropWhile isPySpace).reverse.dropWhile isPySpace).reverse

/-- Python `s.endswith(pat)`. -/
def pyEndsWith (s pat : Str) : Bool := pat.isSuffixOf s

/-- `pat` occurs in `s` starting at position `i`. -/
def patAt (pat s : Str) (i : Nat) : Bool := pat.isPrefixOf (s.drop i)

/-- Python `os.path.join(p, n)` in the shape used here: `p` always ends in a
slash, so the result is `p ++ n` unless `n` is absolute. -/
def pathJoin (p n : Str) : Str :=
  match n with
  | [] => p
  | c :: _ => if c = '/' then n else p ++ n

/-- The three kinds of local scratch artifacts drawn at lines 44-46. -/
inductive ScratchKind where
  | gz
  | csv
  | wide
deriving DecidableEq

/-- Observable state threaded through the embedded program.
`ledger`/`ledgerExists` model `/tmp/failed_files.txt` (one key per line);
`localFiles` the scratch files currently on disk (counter value × kind);
`s3Objects` the keys present in the bucket; `uploads` the successful
`s3.upload_file` calls in order; `uploadCalls` every `upload_with_retry`
invocation's target key; `attempts`/`sleeps` count upload attempts and
`time.sleep` calls; `tmpN` is the fresh-name counter standing in for
`uuid.uuid4()`; `calls` records each `transform_csv` invocation
`(file, city, location_id, year)`. -/
structure St where
  ledger : List Str
  ledgerExists : Bool
  localFiles : List (Nat × ScratchKind)
  s3Objects : List Str
  uploads : List Str
  uploadCalls : List Str
  attempts : Nat
  sleeps : Nat
  tmpN : Nat
  calls : List (Str × Str × Str × Str)
deriving DecidableEq

/-- Oracle fixing the outcome of each external call inside one
`transform_csv` invocation: whether the S3 download raises, whether the gzip
decompression raises, whether `pd.read_csv` raises, how many data rows the
parsed table has, whether each `s3.delete_object` call raises, whether the
pivot raises, and the per-attempt outcome of the archive/wide uploads. -/
structure Env where
  downloadOk : Bool
  gunzipOk : Bool
  readOk : Bool
  rows : Nat
  delete1Ok : Bool
  pivotOk : Bool
  delete2Ok : Bool
  archiveAttempt : Nat → Bool
  wideAttempt : Nat → Bool

/-- `log_failure` (lines 15-19): append one line to the failure ledger; append
mode creates the file if absent. -/
def log_failure (file : Str) (st : St) : St :=
  { st with ledger := st.ledger ++ [file], ledgerExists := true }

/-- The `while attempt < retry` loop of `upload_with_retry` (lines 28-41);
`succ i` is the outcome of attempt `i` (0-based).  On success the object is
put and the loop breaks; on failure either a sleep precedes the next attempt
or, when the budget is exhausted, the key is logged and the loop exits. -/
def uploadGo (succ : Nat → Bool) (key : Str) (retry : Nat) : Nat → Nat → St → St
  | _, 0, st => st
  | attempt, fuel + 1, st =>
    if attempt < retry then
      let st1 := { st with attempts := st.attempts + 1 }
      if succ attempt then
        { st1 with uploads := st1.uploads ++ [key], s3Objects := key :: st1.s3Objects }
      else if attempt + 1 < retry then
        uploadGo succ key retry (attempt + 1) fuel { st1 with sleeps := st1.sleeps + 1 }
      else
        { st1 with ledger := st1.ledger ++ [key], ledgerExists := true }
    else st

/-- `upload_with_retry` (lines 27-41); the target key is recorded in
`uploadCalls` on entry.  The function never raises: every exception of an
attempt is caught by its `except` arm. -/
def upload_with_retry (succ : Nat → Bool) (key : Str) (retry : Nat) (st : St) : St :=
  uploadGo succ key retry 0 retry { st with uploadCalls := st.uploadCalls ++ [key] }

/-- Line 50: `os.path.basename(file).replace('.csv.gz', '.csv')`. -/
def file_name_csv (file : Str) : Str :=
  replaceAll (str ".csv.gz") (str ".csv") (basename file)

/-- Lines 48 and 52: the archive target key. -/
def archive_key (file city location_id year : Str) : Str :=
  pathJoin (city ++ str "/archive/" ++ location_id ++ str "/" ++ year ++ str "/")
    (file_name_csv file)

/-- Lines 47 and 51: the wide target key. -/
def wide_key (file city location_id year : Str) : Str :=
  pathJoin (city ++ str "/wide/" ++ location_id ++ str "/" ++ year ++ str "/")
    (file_name_csv file)

/-- The `try` body of the `csv.gz` branch (lines 55-82); `.error s` is a raised
exception with the state at raise time.  `base` indexes the scratch names of
this invocation.  The decompressed csv scratch file is opened for writing
before the gzip read can fail, so it exists even when decompression raises. -/
def gzBody (env : Env) (file aKey wKey : Str) (base : Nat) (st : St) : Except St St :=
  if env.downloadOk = false then .error st else
  let st1 := { st with localFiles := (base, ScratchKind.gz) :: st.localFiles }
  let st2 := { st1 with localFiles := (base + 1, ScratchKind.csv) :: st1.localFiles }
  if env.gunzipOk = false then .error st2 else
  if env.readOk = false then .error st2 else
  if env.rows = 0 then .error st2 else
  let st3 := upload_with_retry env.archiveAttempt aKey 5 st2
  if env.delete1Ok = false then .error st3 else
  let st4 := { st3 with s3Objects := st3.s3Objects.filter (fun k => k ≠ file) }
  if env.pivotOk = false then .error st4 else
  let st5 := { st4 with localFiles := (base + 2, ScratchKind.wide) :: st4.localFiles }
  let st6 := upload_with_retry env.wideAttempt wKey 5 st5
  if env.delete2Ok = false then .error st6 else
  .ok { st6 with s3Objects := st6.s3Objects.filter (fun k => k ≠ file) }

/-- The `try` body of the `.csv` branch (lines 94-115). -/
def csvBody (env : Env) (file aKey wKey : Str) (base : Nat) (st : St) : Except St St :=
  if env.downloadOk = false then .error st else
  let st1 := { st with localFiles := (base + 1, ScratchKind.csv) :: st.localFiles }
  if env.readOk = false then .error st1 else
  if env.rows = 0 then .error st1 else
  let st2 := upload_with_retry env.archiveAttempt aKey 5 st1
  if env.delete1Ok = false then .error st2 else
  let st3 := { st2 with s3Objects := st2.s3Objects.filter (fun k => k ≠ file) }
  if env.pivotOk = false then .error st3 else
  let st4 := { st3 with localFiles := (base + 2, ScratchKind.wide) :: st3.localFiles }
  let st5 := upload_with_retry env.wideAttempt wKey 5 st4
  if env.delete2Ok = false then .error st5 else
  .ok { st5 with s3Objects := st5.s3Objects.filter (fun k => k ≠ file) }

/-- The `finally` of the gz branch (lines 88-91): remove each scratch file of
this invocation if it exists. -/
def erase3 (base : Nat) (l : List (Nat × ScratchKind)) : List (Nat × ScratchKind) :=
  ((l.erase (base, ScratchKind.gz)).erase (base + 1, ScratchKind.csv)).erase
    (base + 2, ScratchKind.wide)

/-- The `finally` of the csv branch (lines 121-123). -/
def erase2 (base : Nat) (l : List (Nat × ScratchKind)) : List (Nat × ScratchKind) :=
  (l.erase (base + 1, ScratchKind.csv)).erase (base + 2, ScratchKind.wide)

/-- `transform_csv` (lines 43-123).  The three scratch names are drawn
unconditionally (lines 44-46, modelled by `tmpN + 3`), the invocation is
recorded in `calls`, and then the branch on the key's suffix runs with its
`try`/`except`/`finally`.  The function is total: both branches catch every
exception of their body. -/
def transform_csv (env : Env) (file city location_id year : Str) (st0 : St) : St :=
  let base := st0.tmpN
  let st := { st0 with tmpN := st0.tmpN + 3,
                       calls := st0.calls ++ [(file, city, location_id, year)] }
  let aKey := archive_key file city location_id year
  let wKey := wide_key file city location_id year
  if pyEndsWith file (str "csv.gz") then
    let st1 :=
      match gzBody env file aKey wKey base st with
      | .ok s => s
      | .error s => log_failure file s
    { st1 with localFiles := erase3 base st1.localFiles }
  else if pyEndsWith file (str ".csv") then
    let st1 :=
      match csvBody env file aKey wKey base st with
      | .ok s => s
      | .error s => log_failure file s
    { st1 with localFiles := erase2 base st1.localFiles }
  else st

/-- Lines 150-152: `failed_file.split('-')`, component `[1]` and
`[2][0:4]`; `none` models the IndexError raised when there are fewer than
three components. -/
def recoverParts (key : Str) : Option (Str × Str) :=
  match splitOnChar '-' key with
  | _ :: lid :: third :: _ => some (lid, third.take 4)
  | _ => none

/-- Lines 154-162: the inner `for failure_attempt in range(5)` loop.  The
embedded `transform_csv` is total — the Python function catches every
exception its body can raise — so the first iteration always sets `success`
and breaks; the `except` arm of the Python loop is unreachable. -/
def retryAttempts (env : Env) (key lid year : Str) (fuel : Nat) (st : St) : St × Bool :=
  match fuel with
  | 0 => (st, false)
  | _ + 1 => (transform_csv env (pyStrip key) (str "lyon") lid year st, true)

/-- Lines 148-165: the loop over the failed keys, accumulating
`still_failed`; an `.error` is the IndexError of the parse propagating. -/
def retryFold (envOf : Str → Env) (keys : List Str) (st : St) (still : List Str) :
    Except St (St × List Str) :=
  match keys with
  | [] => .ok (st, still)
  | k :: rest =>
    match recoverParts k with
    | none => .error st
    | some (lid, yr) =>
      match retryAttempts (envOf k) k lid yr 5 st with
      | (st1, true) => retryFold envOf rest st1 still
      | (st1, false) => retryFold envOf rest st1 (still ++ [k])

/-- `retry_failed_files` (lines 143-169): read the ledger (each line
stripped; opening a missing ledger raises), run the per-key retry loop, then
rewrite the ledger with exactly the still-failed keys. -/
def retry_failed_files (envOf : Str → Env) (st : St) : Except St St :=
  if st.ledgerExists = false then .error st
  else
    match retryFold envOf (st.ledger.map pyStrip) st [] with
    | .error s => .error s
    | .ok (st1, still) => .ok { st1 with ledger := still, ledgerExists := true }

/-- Lines 181-191: the `for attempt in range(5)` loop at the end of `main`.
A missing ledger makes `os.path.getsize` raise `FileNotFoundError`, which is
caught and breaks the loop; an empty ledger breaks; otherwise
`retry_failed_files` runs and the loop continues.  An `.error` is any other
exception escaping `main`. -/
def mainRetryLoop (envOf : Str → Env) : Nat → St → Except St St
  | 0, st => .ok st
  | fuel + 1, st =>
    if st.ledgerExists = false then .ok st
    else if st.ledger = [] then .ok st
    else
      match retry_failed_files envOf st with
      | .ok st1 => mainRetryLoop envOf fuel st1
      | .error s => .error s

/-- The steps of `transform_csv` whose exceptions reach the unit's `except`
arm: download, gzip decode (gz branch only), parse, the empty check, both
deletes and the pivot.  Upload failures are absorbed inside
`upload_with_retry` and never raise into the unit. -/
def stepFails (isGz : Bool) (env : Env) : Bool :=
  !env.downloadOk || (isGz && !env.gunzipOk) || !env.readOk ||
    decide (env.rows = 0) || !env.delete1Ok || !env.pivotOk || !env.delete2Ok

/-- Spec-side (§6, key naming convention): the filename without its
compression suffix — `.csv.gz` becomes `.csv`, anything else is unchanged. -/
def stripCompressionSuffix (fn : Str) : Str :=
  if (str ".csv.gz").isSuffixOf fn then fn.take (fn.length - 3) else fn

/-- An empty starting state for concrete runs. -/
def st0 : St :=
  { ledger := [], ledgerExists := false, localFiles := [], s3Objects := [],
    uploads := [], uploadCalls := [], attempts := 0, sleeps := 0, tmpN := 0,
    calls := [] }

/-- Oracle under which every external call succeeds and the table has rows. -/
def envOk : Env :=
  { downloadOk := true, gunzipOk := true, readOk := true, rows := 2,
    delete1Ok := true, pivotOk := true, delete2Ok := true,
    archiveAttempt := fun _ => true, wideAttempt := fun _ => true }

/-- Oracle under which the S3 download always raises. -/
def envDownFail : Env := { envOk with downloadOk := false }

/-- Oracle under which every archive upload attempt fails (budget exhausted)
but everything else succeeds. -/
def envArchiveExhaust : Env := { envOk with archiveAttempt := fun _ => false }

/-- Oracle under which the parsed table has zero data rows. -/
def envEmptyRows : Env := { envOk with rows := 0 }

/-! ### Helper lemmas about the upload loop -/

theorem uploadGo_localFiles (succ : Nat → Bool) (key : Str) (retry : Nat) :
    ∀ (fuel attempt : Nat) (st : St),
      (uploadGo succ key retry attempt fuel st).localFiles = st.localFiles := by
  intro fuel
  induction fuel with
  | zero => intro attempt st; rfl
  | succ f ih =>
    intro attempt st
    simp only [uploadGo]
    split_ifs <;> simp [ih]

theorem uploadGo_tmpN (succ : Nat → Bool) (key : Str) (retry : Nat) :
    ∀ (fuel attempt : Nat) (st : St),
      (uploadGo succ key retry attempt fuel st).tmpN = st.tmpN := by
  intro fuel
  induction fuel with
  | zero => intro attempt st; rfl
  | succ f ih =>
    intro attempt st
    simp only [uploadGo]
    split_ifs <;> simp [ih]

theorem uploadGo_calls (succ : Nat → Bool) (key : Str) (retry : Nat) :
    ∀ (fuel attempt : Nat) (st : St),
      (uploadGo succ key retry attempt fuel st).calls = st.calls := by
  intro fuel
  induction fuel with
  | zero => intro attempt st; rfl
  | succ f ih =>
    intro attempt st
    simp only [uploadGo]
    split_ifs <;> simp [ih]

theorem uploadGo_uploadCalls (succ : Nat → Bool) (key : Str) (retry : Nat) :
    ∀ (fuel attempt : Nat) (st : St),
      (uploadGo succ key retry attempt fuel st).uploadCalls = st.uploadCalls := by
  intro fuel
  induction fuel with
  | zero => intro attempt st; rfl
  | succ f ih =>
    intro attempt st
    simp only [uploadGo]
    split_ifs <;> simp [ih]

theorem uploadGo_attempts_le (succ : Nat → Bool) (key : Str) (retry : Nat) :
    ∀ (fuel attempt : Nat) (st : St),
      (uploadGo succ key retry attempt fuel st).attempts ≤ st.attempts + fuel := by
  intro fuel
  induction fuel with
  | zero => intro attempt st; simp [uploadGo]
  | succ f ih =>
    intro attempt st
    simp only [uploadGo]
    split_ifs with h1 h2 h3
    · simp
    · exact le_trans (ih (attempt + 1) _) (by simp; omega)
    · simp
    · omega

/-- If every attempt in the remaining window fails, the loop ends by logging
the key once, uploading nothing. -/
theorem uploadGo_exhaust (succ : Nat → Bool) (key : Str) (retry : Nat) :
    ∀ (fuel attempt : Nat) (st : St), attempt < retry → retry ≤ attempt + fuel →
      (∀ i, i < retry → succ i = false) →
      (uploadGo succ key retry attempt fuel st).ledger = st.ledger ++ [key] ∧
      (uploadGo succ key retry attempt fuel st).uploads = st.uploads := by
  intro fuel
  induction fuel with
  | zero => intro attempt st h1 h2 _; omega
  | succ f ih =>
    intro attempt st h1 h2 hall
    have hs : succ attempt = false := hall attempt h1
    by_cases h3 : attempt + 1 < retry
    · have := ih (attempt + 1) { st with attempts := st.attempts + 1, sleeps := st.sleeps + 1 }
        h3 (by omega) hall
      simpa [uploadGo, h1, hs, h3] using this
    · simp [uploadGo, h1, hs, h3]

/-- If some attempt in the remaining window succeeds (and the loop reaches
it), the loop ends with the upload performed and nothing logged. -/
theorem uploadGo_success (succ : Nat → Bool) (key : Str) (retry : Nat) :
    ∀ (fuel attempt : Nat) (st : St), retry ≤ attempt + fuel →
      (∃ i, attempt ≤ i ∧ i < retry ∧ succ i = true) →
      (uploadGo succ key retry attempt fuel st).ledger = st.ledger ∧
      (uploadGo succ key retry attempt fuel st).uploads = st.uploads ++ [key] := by
  intro fuel
  induction fuel with
  | zero =>
    intro attempt st h1 ⟨i, hi1, hi2, _⟩; omega
  | succ f ih =>
    intro attempt st h1 ⟨i, hi1, hi2, hi3⟩
    have hlt : attempt < retry := by omega
    by_cases hs : succ attempt = true
    · simp [uploadGo, hlt, hs]
    · have hne : attempt ≠ i := fun h => hs (h ▸ hi3)
      have h3 : attempt + 1 < retry := by omega
      have := ih (attempt + 1) { st with attempts := st.attempts + 1, sleeps := st.sleeps + 1 }
        (by omega) ⟨i, by omega, hi2, hi3⟩
      simpa [uploadGo, hlt, hs, h3] using this

theorem upload_with_retry_localFiles (succ : Nat → Bool) (key : Str) (retry : Nat) (st : St) :
    (upload_with_retry succ key retry st).localFiles = st.localFiles := by
  simp [upload_with_retry, uploadGo_localFiles]

theorem upload_with_retry_tmpN (succ : Nat → Bool) (key : Str) (retry : Nat) (st : St) :
    (upload_with_retry succ key retry st).tmpN = st.tmpN := by
  simp [upload_with_retry, uploadGo_tmpN]

theorem upload_with_retry_calls (succ : Nat → Bool) (key : Str) (retry : Nat) (st : St) :
    (upload_with_retry succ key retry st).calls = st.calls := by
  simp [upload_with_retry, uploadGo_calls]

theorem upload_with_retry_uploadCalls (succ : Nat → Bool) (key : Str) (retry : Nat) (st : St) :
    (upload_with_retry succ key retry st).uploadCalls = st.uploadCalls ++ [key] := by
  simp [upload_with_retry, uploadGo_uploadCalls]

/-- Conditional rewrite: exhausted upload appends the target key once. -/
theorem upload_exhaust_ledger (succ : Nat → Bool) (key : Str) (retry : Nat) (st : St)
    (h1 : 0 < retry) (hall : ∀ i, i < retry → succ i = false) :
    (upload_with_retry succ key retry st).ledger = st.ledger ++ [key] := by
  simpa [upload_with_retry] using
    (uploadGo_exhaust succ key retry retry 0 _ h1 (by omega) hall).1

theorem upload_exhaust_uploads (succ : Nat → Bool) (key : Str) (retry : Nat) (st : St)
    (h1 : 0 < retry) (hall : ∀ i, i < retry → succ i = false) :
    (upload_with_retry succ key retry st).uploads = st.uploads := by
  simpa [upload_with_retry] using
    (uploadGo_exhaust succ key retry retry 0 _ h1 (by omega) hall).2

theorem upload_success_ledger (succ : Nat → Bool) (key : Str) (retry : Nat) (st : St)
    (hex : ∃ i, i < retry ∧ succ i = true) :
    (upload_with_retry succ key retry st).ledger = st.ledger := by
  obtain ⟨i, hi1, hi2⟩ := hex
  simpa [upload_with_retry] using
    (uploadGo_success succ key retry retry 0 _ (by omega) ⟨i, by omega, hi1, hi2⟩).1

theorem upload_success_uploads (succ : Nat → Bool) (key : Str) (retry : Nat) (st : St)
    (hex : ∃ i, i < retry ∧ succ i = true) :
    (upload_with_retry succ key retry st).uploads = st.uploads ++ [key] := by
  obtain ⟨i, hi1, hi2⟩ := hex
  simpa [upload_with_retry] using
    (uploadGo_success succ key retry retry 0 _ (by omega) ⟨i, by omega, hi1, hi2⟩).2

/-! ### Claim theorems (first batch) -/

/-- C2: if every one of the `retry` attempts of `upload_with_retry` fails, the
remote key is appended to the failure ledger exactly once (and the function
returns normally — in the embedding it is a total function); if some attempt
succeeds, nothing is appended to the ledger. -/
theorem upload_with_retry_ledger_on_exhaustion_and_success (succ : Nat → Bool) (key : Str)
    (retry : Nat) (st : St) (hr : 0 < retry) :
    ((∀ i, i < retry → succ i = false) →
      (upload_with_retry succ key retry st).ledger = st.ledger ++ [key]) ∧
    ((∃ i, i < retry ∧ succ i = true) →
      (upload_with_retry succ key retry st).ledger = st.ledger) :=
  ⟨fun hall => upload_exhaust_ledger succ key retry st hr hall,
   fun hex => upload_success_ledger succ key retry st hex⟩

/-- Witness for C2: with 5 attempts that all fail the key `"k"` is appended
once; with an attempt that succeeds (the third) nothing is appended. -/
theorem upload_with_retry_ledger_witness :
    (0 < 5 ∧
      (upload_with_retry (fun _ => false) (str "k") 5 st0).ledger = st0.ledger ++ [str "k"]) ∧
    (upload_with_retry (fun i => decide (i = 2)) (str "k") 5 st0).ledger = st0.ledger := by
  refine ⟨⟨by decide, ?_⟩, ?_⟩
  · exact (upload_with_retry_ledger_on_exhaustion_and_success (fun _ => false) (str "k") 5 st0
      (by decide)).1 (fun i _ => rfl)
  · exact (upload_with_retry_ledger_on_exhaustion_and_success (fun i => decide (i = 2))
      (str "k") 5 st0 (by decide)).2 ⟨2, by decide, by decide⟩

/-- C5: `upload_with_retry` makes at most `retry` (default 5) total attempts,
and sleeps exactly between consecutive failed attempts; in particular when
attempts 1–4 fail and attempt 5 succeeds there are 5 attempts, 4 sleeps, and
no key is appended to the failure ledger. -/
theorem upload_with_retry_attempt_bound_and_fifth_success (succ : Nat → Bool) (key : Str)
    (retry : Nat) (st : St) :
    (upload_with_retry succ key retry st).attempts ≤ st.attempts + retry ∧
    ((∀ i, i < 4 → succ i = false) → succ 4 = true →
      (upload_with_retry succ key 5 st).ledger = st.ledger ∧
      (upload_with_retry succ key 5 st).sleeps = st.sleeps + 4 ∧
      (upload_with_retry succ key 5 st).attempts = st.attempts + 5) := by
  constructor
  · simpa [upload_with_retry] using uploadGo_attempts_le succ key retry retry 0 _
  · intro hfail hs
    have e0 : succ 0 = false := hfail 0 (by omega)
    have e1 : succ 1 = false := hfail 1 (by omega)
    have e2 : succ 2 = false := hfail 2 (by omega)
    have e3 : succ 3 = false := hfail 3 (by omega)
    refine ⟨?_, ?_, ?_⟩ <;> simp [upload_with_retry, uploadGo, e0, e1, e2, e3, hs]

/-- Witness for C5: attempts 1–4 fail, attempt 5 succeeds — at most 5
attempts, no ledger entry, 4 sleeps. -/
theorem upload_with_retry_attempt_bound_witness :
    (upload_with_retry (fun i => decide (i = 4)) (str "k") 5 st0).attempts ≤ st0.attempts + 5 ∧
    (upload_with_retry (fun i => decide (i = 4)) (str "k") 5 st0).ledger = st0.ledger ∧
    (upload_with_retry (fun i => decide (i = 4)) (str "k") 5 st0).sleeps = st0.sleeps + 4 := by
  have h := upload_with_retry_attempt_bound_and_fifth_success (fun i => decide (i = 4))
    (str "k") 5 st0
  have h2 := h.2 (fun i hi => by simp only [decide_eq_false_iff_not]; omega) (by decide)
  exact ⟨h.1, h2.1, h2.2.1⟩

/-- C7: a missing failure-ledger file means "no failures": the retry loop at
the end of `main` catches the `FileNotFoundError` of `os.path.getsize`,
breaks immediately without performing any retry pass, and the program state
is unchanged (no error propagates), whatever the retry budget. -/
theorem main_retry_loop_absent_ledger_no_failures (envOf : Str → Env) (fuel : Nat) (st : St)
    (h : st.ledgerExists = false) :
    mainRetryLoop envOf fuel st = Except.ok st := by
  cases fuel with
  | zero => rfl
  | succ f => simp [mainRetryLoop, h]

/-- Witness for C7: the empty state has no ledger file and the loop with the
code's budget of 5 stops at once with the state unchanged. -/
theorem main_retry_loop_absent_ledger_witness :
    st0.ledgerExists = false ∧ mainRetryLoop (fun _ => envOk) 5 st0 = Except.ok st0 :=
  ⟨rfl, main_retry_loop_absent_ledger_no_failures (fun _ => envOk) 5 st0 rfl⟩

/-- C10: on a key recognized by neither branch (`endswith('csv.gz')` and
`endswith('.csv')` both false) `transform_csv` only draws the three scratch
names (lines 44-46, `tmpN + 3`) and returns: the ledger, the local files, the
remote objects, the uploads and the attempt/sleep counters are all untouched
and no exception is raised (`calls` records the invocation itself). -/
theorem transform_unrecognized_key_noop (env : Env) (file city lid yr : Str) (st : St)
    (h1 : pyEndsWith file (str "csv.gz") = false)
    (h2 : pyEndsWith file (str ".csv") = false) :
    transform_csv env file city lid yr st =
      { st with tmpN := st.tmpN + 3, calls := st.calls ++ [(file, city, lid, yr)] } := by
  simp [transform_csv, h1, h2]

/-- Witness for C10 at the key `"lyon/3647/2022/readme.txt"`. -/
theorem transform_unrecognized_key_witness :
    pyEndsWith (str "lyon/3647/2022/readme.txt") (str "csv.gz") = false ∧
    pyEndsWith (str "lyon/3647/2022/readme.txt") (str ".csv") = false ∧
    transform_csv envOk (str "lyon/3647/2022/readme.txt") (str "lyon") (str "3647")
        (str "2022") st0 =
      { st0 with tmpN := st0.tmpN + 3,
                 calls := st0.calls ++
                   [(str "lyon/3647/2022/readme.txt", str "lyon", str "3647", str "2022")] } :=
  ⟨by decide, by decide,
    transform_unrecognized_key_noop envOk (str "lyon/3647/2022/readme.txt") (str "lyon")
      (str "3647") (str "2022") st0 (by decide) (by decide)⟩

/-- C1 (evaluation at the failing input): a retry pass over a ledger holding
one key whose processing fails on every attempt (here: the S3 download always
raises) ends with the ledger rewritten to the EMPTY list, not to the one
still-failing key.  `transform_csv` swallows every exception of its body, so
the driver's `except` arm never fires, `success` is set on the first of the 5
outer attempts, and `still_failed` stays empty — the key the spec requires to
be retained is dropped. -/
theorem retry_pass_clears_ledger_despite_persistent_failure :
    (retry_failed_files (fun _ => envDownFail)
        { st0 with ledger := [str "location-3647-20170101.csv.gz"],
                   ledgerExists := true }).toOption.map St.ledger = some [] ∧
    some ([] : List Str) ≠ some [str "location-3647-20170101.csv.gz"] :=
  ⟨by decide, by decide⟩

/-- C6 (counterexample): the driver splits the WHOLE key on `'-'` and slices,
so on the spec's own scenario key `lyon/3647/2022/loc3647-2022-01.csv.gz`
(path convention: location_id `3647`, year `2022`) it re-invokes the
transform unit with location_id `"2022"` and year `"01.c"`. -/
theorem retry_parse_diverges_from_path_convention :
    (retry_failed_files (fun _ => envDownFail)
        { st0 with ledger := [str "lyon/3647/2022/loc3647-2022-01.csv.gz"],
                   ledgerExists := true }).toOption.map St.calls =
      some [(str "lyon/3647/2022/loc3647-2022-01.csv.gz", str "lyon", str "2022", str "01.c")] ∧
    (str "2022", str "01.c") ≠ (str "3647", str "2022") :=
  ⟨by decide, by decide⟩

/-- C3 (counterexample): when the archive upload exhausts its 5 attempts and
everything else succeeds, exceptions did arise during the archive upload step,
yet the unit's key is NOT appended to the ledger — the Transfer Primitive
appended the remote target key `lyon/archive/3647/2022/a.csv` instead. -/
theorem transform_upload_exhaustion_logs_remote_key :
    (transform_csv envArchiveExhaust (str "lyon/3647/2022/a.csv.gz") (str "lyon")
        (str "3647") (str "2022") st0).ledger = [str "lyon/archive/3647/2022/a.csv"] ∧
    [str "lyon/archive/3647/2022/a.csv"] ≠ [str "lyon/3647/2022/a.csv.gz"] :=
  ⟨by decide, by decide⟩

/-- C3 (amended): on a recognized key, any exception of the
fetch/decode/validate/delete/reshape steps — the steps whose exceptions reach
the unit's `except` arm — is caught there, the unit's key is appended to the
failure ledger, and the unit returns normally (the embedded function is
total).  Exceptions inside the archive/wide upload steps are absorbed by
`upload_with_retry` and never reach the unit boundary: if the archive upload
exhausts its budget while everything else succeeds, the ledger instead gains
exactly the remote archive target key. -/
theorem transform_error_containment (env : Env) (file city lid yr : Str) (st : St)
    (hbr : pyEndsWith file (str "csv.gz") = true ∨
      (pyEndsWith file (str "csv.gz") = false ∧ pyEndsWith file (str ".csv") = true)) :
    (stepFails (pyEndsWith file (str "csv.gz")) env = true →
      ∃ pre, (transform_csv env file city lid yr st).ledger = pre ++ [file]) ∧
    (stepFails (pyEndsWith file (str "csv.gz")) env = false →
      (∀ i, i < 5 → env.archiveAttempt i = false) →
      (∃ i, i < 5 ∧ env.wideAttempt i = true) →
      (transform_csv env file city lid yr st).ledger =
        st.ledger ++ [archive_key file city lid yr]) := by
  rcases hbr with h1 | ⟨h1, h2⟩
  · rw [h1]
    constructor
    · intro hf
      by_cases hd : env.downloadOk = false
      · simp [transform_csv, h1, gzBody, hd, log_failure]
      by_cases hg : env.gunzipOk = false
      · simp [transform_csv, h1, gzBody, hd, hg, log_failure]
      by_cases hr : env.readOk = false
      · simp [transform_csv, h1, gzBody, hd, hg, hr, log_failure]
      by_cases h0 : env.rows = 0
      · simp [transform_csv, h1, gzBody, hd, hg, hr, h0, log_failure]
      by_cases hd1 : env.delete1Ok = false
      · simp [transform_csv, h1, gzBody, hd, hg, hr, h0, hd1, log_failure]
      by_cases hp : env.pivotOk = false
      · simp [transform_csv, h1, gzBody, hd, hg, hr, h0, hd1, hp, log_failure]
      by_cases hd2 : env.delete2Ok = false
      · simp [transform_csv, h1, gzBody, hd, hg, hr, h0, hd1, hp, hd2, log_failure]
      · exfalso
        simp only [stepFails] at hf
        revert hf
        simp only [Bool.or_eq_true, Bool.not_eq_true', Bool.and_eq_true, decide_eq_true_eq]
        intro hf
        tauto
    · intro hok hall hex
      simp only [stepFails] at hok
      revert hok
      simp only [Bool.or_eq_false_iff, Bool.not_eq_false', Bool.and_eq_false_iff,
        decide_eq_false_iff_not]
      intro hok
      obtain ⟨⟨⟨⟨⟨⟨hd, hg⟩, hr⟩, h0⟩, hd1⟩, hp⟩, hd2⟩ := hok
      have hg' : env.gunzipOk = true := by tauto
      simp [transform_csv, h1, gzBody, hd, hg', hr, h0, hd1, hp, hd2]
      rw [upload_success_ledger env.wideAttempt _ 5 _ hex]
      simp
      rw [upload_exhaust_ledger env.archiveAttempt _ 5 _ (by omega) hall]
  · rw [h1]
    constructor
    · intro hf
      by_cases hd : env.downloadOk = false
      · simp [transform_csv, h1, h2, csvBody, hd, log_failure]
      by_cases hr : env.readOk = false
      · simp [transform_csv, h1, h2, csvBody, hd, hr, log_failure]
      by_cases h0 : env.rows = 0
      · simp [transform_csv, h1, h2, csvBody, hd, hr, h0, log_failure]
      by_cases hd1 : env.delete1Ok = false
      · simp [transform_csv, h1, h2, csvBody, hd, hr, h0, hd1, log_failure]
      by_cases hp : env.pivotOk = false
      · simp [transform_csv, h1, h2, csvBody, hd, hr, h0, hd1, hp, log_failure]
      by_cases hd2 : env.delete2Ok = false
      · simp [transform_csv, h1, h2, csvBody, hd, hr, h0, hd1, hp, hd2, log_failure]
      · exfalso
        simp only [stepFails] at hf
        revert hf
        simp only [Bool.or_eq_true, Bool.not_eq_true', Bool.and_eq_true, decide_eq_true_eq,
          Bool.false_and, false_or]
        intro hf
        tauto
    · intro hok hall hex
      simp only [stepFails] at hok
      revert hok
      simp only [Bool.or_eq_false_iff, Bool.not_eq_false', Bool.and_eq_false_iff,
        decide_eq_false_iff_not]
      intro hok
      obtain ⟨⟨⟨⟨⟨⟨hd, hg⟩, hr⟩, h0⟩, hd1⟩, hp⟩, hd2⟩ := hok
      simp [transform_csv, h1, h2, csvBody, hd, hr, h0, hd1, hp, hd2]
      rw [upload_success_ledger env.wideAttempt _ 5 _ hex]
      simp
      rw [upload_exhaust_ledger env.archiveAttempt _ 5 _ (by omega) hall]

/-- Witness for C3 (amended): a failing download appends the unit's key; an
exhausted archive upload with everything else fine appends the remote key. -/
theorem transform_error_containment_witness :
    (stepFails (pyEndsWith (str "lyon/3647/2022/a.csv.gz") (str "csv.gz")) envDownFail = true ∧
      ∃ pre, (transform_csv envDownFail (str "lyon/3647/2022/a.csv.gz") (str "lyon")
        (str "3647") (str "2022") st0).ledger = pre ++ [str "lyon/3647/2022/a.csv.gz"]) ∧
    (transform_csv envArchiveExhaust (str "lyon/3647/2022/b.csv.gz") (str "lyon")
        (str "3647") (str "2022") st0).ledger =
      st0.ledger ++ [archive_key (str "lyon/3647/2022/b.csv.gz") (str "lyon") (str "3647")
        (str "2022")] := by
  refine ⟨⟨by decide, ?_⟩, ?_⟩
  · exact (transform_error_containment envDownFail (str "lyon/3647/2022/a.csv.gz")
      (str "lyon") (str "3647") (str "2022") st0 (Or.inl (by decide))).1 (by decide)
  · exact (transform_error_containment envArchiveExhaust (str "lyon/3647/2022/b.csv.gz")
      (str "lyon") (str "3647") (str "2022") st0 (Or.inl (by decide))).2 (by decide)
      (fun i _ => rfl) ⟨0, by decide, rfl⟩

/-- C4: on a recognized key whose table parses with zero data rows, the unit
performs no archive and no wide upload (indeed never even calls the transfer
primitive), appends the key to the failure ledger, and never reaches the
source-object delete, so the source object still exists afterwards. -/
theorem transform_empty_input_no_upload_no_delete (env : Env) (file city lid yr : Str)
    (st : St)
    (hbr : pyEndsWith file (str "csv.gz") = true ∨
      (pyEndsWith file (str "csv.gz") = false ∧ pyEndsWith file (str ".csv") = true))
    (hd : env.downloadOk = true) (hg : env.gunzipOk = true) (hread : env.readOk = true)
    (h0 : env.rows = 0) (hs3 : file ∈ st.s3Objects) :
    (transform_csv env file city lid yr st).uploads = st.uploads ∧
    (transform_csv env file city lid yr st).uploadCalls = st.uploadCalls ∧
    (transform_csv env file city lid yr st).ledger = st.ledger ++ [file] ∧
    file ∈ (transform_csv env file city lid yr st).s3Objects := by
  rcases hbr with h1 | ⟨h1, h2⟩
  · refine ⟨?_, ?_, ?_, ?_⟩ <;>
      simp [transform_csv, h1, gzBody, hd, hg, hread, h0, log_failure, hs3]
  · refine ⟨?_, ?_, ?_, ?_⟩ <;>
      simp [transform_csv, h1, h2, csvBody, hd, hread, h0, log_failure, hs3]

/-- Witness for C4 at a compressed key with an empty table. -/
theorem transform_empty_input_witness :
    envEmptyRows.rows = 0 ∧
    ((transform_csv envEmptyRows (str "lyon/3647/2022/a.csv.gz") (str "lyon") (str "3647")
        (str "2022") { st0 with s3Objects := [str "lyon/3647/2022/a.csv.gz"] }).uploads =
      ({ st0 with s3Objects := [str "lyon/3647/2022/a.csv.gz"] } : St).uploads ∧
    (transform_csv envEmptyRows (str "lyon/3647/2022/a.csv.gz") (str "lyon") (str "3647")
        (str "2022") { st0 with s3Objects := [str "lyon/3647/2022/a.csv.gz"] }).uploadCalls =
      ({ st0 with s3Objects := [str "lyon/3647/2022/a.csv.gz"] } : St).uploadCalls ∧
    (transform_csv envEmptyRows (str "lyon/3647/2022/a.csv.gz") (str "lyon") (str "3647")
        (str "2022") { st0 with s3Objects := [str "lyon/3647/2022/a.csv.gz"] }).ledger =
      ({ st0 with s3Objects := [str "lyon/3647/2022/a.csv.gz"] } : St).ledger ++
        [str "lyon/3647/2022/a.csv.gz"] ∧
    str "lyon/3647/2022/a.csv.gz" ∈
      (transform_csv envEmptyRows (str "lyon/3647/2022/a.csv.gz") (str "lyon") (str "3647")
        (str "2022") { st0 with s3Objects := [str "lyon/3647/2022/a.csv.gz"] }).s3Objects) :=
  ⟨rfl, transform_empty_input_no_upload_no_delete envEmptyRows
    (str "lyon/3647/2022/a.csv.gz") (str "lyon") (str "3647") (str "2022")
    { st0 with s3Objects := [str "lyon/3647/2022/a.csv.gz"] } (Or.inl (by decide))
    rfl rfl rfl rfl (by decide)⟩

theorem erase3_not_created (b : Nat) (L : List (Nat × ScratchKind))
    (h1 : (b, ScratchKind.gz) ∉ L) (h2 : (b + 1, ScratchKind.csv) ∉ L)
    (h3 : (b + 2, ScratchKind.wide) ∉ L) : erase3 b L = L := by
  unfold erase3
  rw [List.erase_of_not_mem h1, List.erase_of_not_mem h2, List.erase_of_not_mem h3]

theorem erase3_two (b : Nat) (L : List (Nat × ScratchKind))
    (h3 : (b + 2, ScratchKind.wide) ∉ L) :
    erase3 b ((b + 1, ScratchKind.csv) :: (b, ScratchKind.gz) :: L) = L := by
  unfold erase3
  rw [List.erase_cons_tail (by simp), List.erase_cons_head, List.erase_cons_head,
    List.erase_of_not_mem h3]

theorem erase3_three (b : Nat) (L : List (Nat × ScratchKind)) :
    erase3 b ((b + 2, ScratchKind.wide) :: (b + 1, ScratchKind.csv) ::
      (b, ScratchKind.gz) :: L) = L := by
  unfold erase3
  rw [List.erase_cons_tail (by simp), List.erase_cons_tail (by simp), List.erase_cons_head,
    List.erase_cons_tail (by simp), List.erase_cons_head, List.erase_cons_head]

theorem erase2_not_created (b : Nat) (L : List (Nat × ScratchKind))
    (h2 : (b + 1, ScratchKind.csv) ∉ L) (h3 : (b + 2, ScratchKind.wide) ∉ L) :
    erase2 b L = L := by
  unfold erase2
  rw [List.erase_of_not_mem h2, List.erase_of_not_mem h3]

theorem erase2_one (b : Nat) (L : List (Nat × ScratchKind))
    (h3 : (b + 2, ScratchKind.wide) ∉ L) :
    erase2 b ((b + 1, ScratchKind.csv) :: L) = L := by
  unfold erase2
  rw [List.erase_cons_head, List.erase_of_not_mem h3]

theorem erase2_two (b : Nat) (L : List (Nat × ScratchKind)) :
    erase2 b ((b + 2, ScratchKind.wide) :: (b + 1, ScratchKind.csv) :: L) = L := by
  unfold erase2
  rw [List.erase_cons_tail (by simp), List.erase_cons_head, List.erase_cons_head]

/-- C8: every local scratch artifact created during one `transform_csv`
invocation is removed before the unit returns, on every exit path (success,
any raised step, or unrecognized key): provided the fresh-name counter really
is fresh (no pre-existing scratch file uses an index the invocation will
draw — the guarantee `uuid.uuid4()` gives the Python code), the local scratch
directory is exactly as before the invocation. -/
theorem transform_cleanup_scoped (env : Env) (file city lid yr : Str) (st : St)
    (hfresh : ∀ q ∈ st.localFiles, q.1 < st.tmpN) :
    (transform_csv env file city lid yr st).localFiles = st.localFiles := by
  have m1 : (st.tmpN, ScratchKind.gz) ∉ st.localFiles :=
    fun h => absurd (hfresh _ h) (by omega)
  have m2 : (st.tmpN + 1, ScratchKind.csv) ∉ st.localFiles :=
    fun h => absurd (hfresh _ h) (by omega)
  have m3 : (st.tmpN + 2, ScratchKind.wide) ∉ st.localFiles :=
    fun h => absurd (hfresh _ h) (by omega)
  by_cases h1 : pyEndsWith file (str "csv.gz") = true
  · by_cases hd : env.downloadOk = false
    · simp [transform_csv, h1, gzBody, hd, log_failure]
      exact erase3_not_created _ _ m1 m2 m3
    by_cases hg : env.gunzipOk = false
    · simp [transform_csv, h1, gzBody, hd, hg, log_failure]
      exact erase3_two _ _ m3
    by_cases hr : env.readOk = false
    · simp [transform_csv, h1, gzBody, hd, hg, hr, log_failure]
      exact erase3_two _ _ m3
    by_cases h0 : env.rows = 0
    · simp [transform_csv, h1, gzBody, hd, hg, hr, h0, log_failure]
      exact erase3_two _ _ m3
    by_cases hd1 : env.delete1Ok = false
    · simp [transform_csv, h1, gzBody, hd, hg, hr, h0, hd1, log_failure,
        upload_with_retry_localFiles]
      exact erase3_two _ _ m3
    by_cases hp : env.pivotOk = false
    · simp [transform_csv, h1, gzBody, hd, hg, hr, h0, hd1, hp, log_failure,
        upload_with_retry_localFiles]
      exact erase3_two _ _ m3
    by_cases hd2 : env.delete2Ok = false
    · simp [transform_csv, h1, gzBody, hd, hg, hr, h0, hd1, hp, hd2, log_failure,
        upload_with_retry_localFiles]
      exact erase3_three _ _
    · simp [transform_csv, h1, gzBody, hd, hg, hr, h0, hd1, hp, hd2, log_failure,
        upload_with_retry_localFiles]
      exact erase3_three _ _
  · simp only [Bool.not_eq_true] at h1
    by_cases h2 : pyEndsWith file (str ".csv") = true
    · by_cases hd : env.downloadOk = false
      · simp [transform_csv, h1, h2, csvBody, hd, log_failure]
        exact erase2_not_created _ _ m2 m3
      by_cases hr : env.readOk = false
      · simp [transform_csv, h1, h2, csvBody, hd, hr, log_failure]
        exact erase2_one _ _ m3
      by_cases h0 : env.rows = 0
      · simp [transform_csv, h1, h2, csvBody, hd, hr, h0, log_failure]
        exact erase2_one _ _ m3
      by_cases hd1 : env.delete1Ok = false
      · simp [transform_csv, h1, h2, csvBody, hd, hr, h0, hd1, log_failure,
          upload_with_retry_localFiles]
        exact erase2_one _ _ m3
      by_cases hp : env.pivotOk = false
      · simp [transform_csv, h1, h2, csvBody, hd, hr, h0, hd1, hp, log_failure,
          upload_with_retry_localFiles]
        exact erase2_one _ _ m3
      by_cases hd2 : env.delete2Ok = false
      · simp [transform_csv, h1, h2, csvBody, hd, hr, h0, hd1, hp, hd2, log_failure,
          upload_with_retry_localFiles]
        exact erase2_two _ _
      · simp [transform_csv, h1, h2, csvBody, hd, hr, h0, hd1, hp, hd2, log_failure,
          upload_with_retry_localFiles]
        exact erase2_two _ _
    · simp only [Bool.not_eq_true] at h2
      simp [transform_csv, h1, h2]

/-- Witness for C8: a run with a pre-existing unrelated scratch file, all
steps succeeding, leaves the local files exactly as before. -/
theorem transform_cleanup_scoped_witness :
    (∀ q ∈ ({ st0 with localFiles := [(5, ScratchKind.csv)], tmpN := 7 } : St).localFiles,
      q.1 < ({ st0 with localFiles := [(5, ScratchKind.csv)], tmpN := 7 } : St).tmpN) ∧
    (transform_csv envOk (str "lyon/3647/2022/a.csv.gz") (str "lyon") (str "3647")
        (str "2022") { st0 with localFiles := [(5, ScratchKind.csv)], tmpN := 7 }).localFiles =
      ({ st0 with localFiles := [(5, ScratchKind.csv)], tmpN := 7 } : St).localFiles :=
  ⟨by decide, transform_cleanup_scoped envOk (str "lyon/3647/2022/a.csv.gz") (str "lyon")
    (str "3647") (str "2022") { st0 with localFiles := [(5, ScratchKind.csv)], tmpN := 7 }
    (by decide)⟩

theorem takeWhile_ne_slash (l m : Str) (h : ('/' : Char) ∉ l) :
    (l ++ '/' :: m).takeWhile (fun c => c ≠ '/') = l := by
  induction l with
  | nil => simp [List.takeWhile_cons]
  | cons c cs ih =>
    simp only [List.mem_cons, not_or] at h
    have hc : (decide (c ≠ '/')) = true := by
      simp only [decide_eq_true_eq]
      exact fun e => h.1 (e ▸ rfl)
    simp only [List.cons_append, List.takeWhile_cons, hc, if_true]
    rw [ih h.2]

theorem basename_of_append (p fname : Str) (h : ('/' : Char) ∉ fname) :
    basename (p ++ '/' :: fname) = fname := by
  unfold basename
  rw [List.reverse_append, List.reverse_cons, List.append_assoc, List.singleton_append]
  rw [takeWhile_ne_slash _ _ (by simpa using h), List.reverse_reverse]

theorem replaceAllAux_no_occ (pat rep : Str) :
    ∀ (fuel : Nat) (s : Str), (∀ i, patAt pat s i = false) →
      replaceAllAux pat rep fuel s = s := by
  intro fuel
  induction fuel with
  | zero => intro s _; cases s <;> rfl
  | succ f ih =>
    intro s h
    cases s with
    | nil => rfl
    | cons c cs =>
      have h0 : pat.isPrefixOf (c :: cs) = false := by simpa [patAt] using h 0
      simp only [replaceAllAux, h0, Bool.false_eq_true, if_false]
      exact congrArg (List.cons c)
        (ih cs (fun i => by simpa [patAt, List.drop_succ_cons] using h (i + 1)))

theorem replaceAll_no_occ (pat rep s : Str) (h : ∀ i, patAt pat s i = false) :
    replaceAll pat rep s = s :=
  replaceAllAux_no_occ pat rep s.length s h

theorem replaceAllAux_final_occ (pat rep : Str) (hpat : pat ≠ []) :
    ∀ (stem : Str) (fuel : Nat), (stem ++ pat).length ≤ fuel →
      (∀ i, i < stem.length → patAt pat (stem ++ pat) i = false) →
      replaceAllAux pat rep fuel (stem ++ pat) = stem ++ rep := by
  intro stem
  induction stem with
  | nil =>
    intro fuel hf _
    obtain ⟨c, cs, rfl⟩ : ∃ c cs, pat = c :: cs := by
      cases pat with
      | nil => exact absurd rfl hpat
      | cons c cs => exact ⟨c, cs, rfl⟩
    cases fuel with
    | zero => simp at hf
    | succ f =>
      have hpre : (c :: cs).isPrefixOf (c :: cs) = true := by
        simp [List.isPrefixOf_iff_prefix]
      simp only [List.nil_append, replaceAllAux, hpre, if_true]
      simp [List.drop_length]
      cases f <;> rfl
  | cons a stem' ih =>
    intro fuel hf h
    cases fuel with
    | zero => simp at hf
    | succ f =>
      have h0 : pat.isPrefixOf (a :: (stem' ++ pat)) = false := by
        simpa [patAt] using h 0 (by simp)
      simp only [List.cons_append, replaceAllAux, List.append_eq, h0, Bool.false_eq_true,
        if_false]
      refine congrArg (List.cons a) (ih f ?_ ?_)
      · simp only [List.cons_append, List.length_cons] at hf
        simpa using Nat.le_of_succ_le_succ hf
      · intro i hi
        have := h (i + 1) (by simp only [List.length_cons]; omega)
        simpa [patAt, List.drop_succ_cons] using this

theorem replaceAll_final_occ (pat rep stem : Str) (hpat : pat ≠ [])
    (h : ∀ i, i < stem.length → patAt pat (stem ++ pat) i = false) :
    replaceAll pat rep (stem ++ pat) = stem ++ rep :=
  replaceAllAux_final_occ pat rep hpat stem (stem ++ pat).length le_rfl h

theorem patAt_true_bounds (pat s : Str) (i : Nat) (hpat : pat ≠ [])
    (hp : patAt pat s i = true) : i + pat.length ≤ s.length := by
  have hpre : pat <+: s.drop i := List.isPrefixOf_iff_prefix.mp hp
  have hlen := hpre.length_le
  rw [List.length_drop] at hlen
  have hpos : 0 < pat.length := List.length_pos.mpr hpat
  omega

theorem occurrence_is_suffix (pat s : Str) (i : Nat)
    (hp : patAt pat s i = true) (hend : i + pat.length = s.length) :
    pat.isSuffixOf s = true := by
  have hpre : pat <+: s.drop i := List.isPrefixOf_iff_prefix.mp hp
  have hlen : (s.drop i).length ≤ pat.length := by
    rw [List.length_drop]; omega
  have heq : pat = s.drop i := hpre.eq_of_length (le_antisymm hpre.length_le hlen)
  rw [List.isSuffixOf_iff_suffix]
  exact ⟨s.take i, by rw [heq]; exact List.take_append_drop i s⟩

theorem replaceAll_eq_strip (fname : Str)
    (honly : ∀ i, i < fname.length →
      patAt (str ".csv.gz") fname i = true → i + 7 = fname.length) :
    replaceAll (str ".csv.gz") (str ".csv") fname = stripCompressionSuffix fname := by
  by_cases hsuf : (str ".csv.gz").isSuffixOf fname = true
  · obtain ⟨stem, rfl⟩ : ∃ stem, stem ++ str ".csv.gz" = fname := by
      have := List.isSuffixOf_iff_suffix.mp hsuf
      exact this
    have hlen : (stem ++ str ".csv.gz").length = stem.length + 7 := by
      simp [str]
    rw [replaceAll_final_occ _ _ _ (by decide) ?_]
    · rw [stripCompressionSuffix, if_pos hsuf, hlen]
      rw [show stem.length + 7 - 3 = stem.length + 4 from by omega,
        List.take_append_eq_append_take, List.take_of_length_le (by omega),
        show stem.length + 4 - stem.length = 4 from by omega]
      rfl
    · intro i hi
      cases hp : patAt (str ".csv.gz") (stem ++ str ".csv.gz") i with
      | false => rfl
      | true =>
        exfalso
        have := honly i (by rw [hlen]; omega) hp
        rw [hlen] at this
        omega
  · rw [stripCompressionSuffix, if_neg hsuf]
    apply replaceAll_no_occ
    intro i
    cases hp : patAt (str ".csv.gz") fname i with
    | false => rfl
    | true =>
      exfalso
      have hb := patAt_true_bounds _ _ _ (by decide) hp
      have hi : i < fname.length := by
        have : (str ".csv.gz").length = 7 := rfl
        omega
      have hend := honly i hi hp
      exact hsuf (occurrence_is_suffix _ _ _ hp
        (by have : (str ".csv.gz").length = 7 := rfl; omega))

theorem strip_no_slash (fname : Str) (h : ('/' : Char) ∉ fname) :
    ('/' : Char) ∉ stripCompressionSuffix fname := by
  unfold stripCompressionSuffix
  split
  · intro hm
    exact h (List.take_subset _ _ hm)
  · exact h

theorem pathJoin_no_slash (p n : Str) (h : ('/' : Char) ∉ n) : pathJoin p n = p ++ n := by
  cases n with
  | nil => simp [pathJoin]
  | cons c cs =>
    have hc : ¬ c = '/' := fun e => h (by simp [e])
    simp [pathJoin, hc]

/-- C9 (counterexample): the code computes the target filename with
`str.replace('.csv.gz', '.csv')` (line 50), which replaces EVERY occurrence,
not just a final compression suffix: for the source key
`lyon/3647/2022/a.csv.gz.csv.gz` the archive upload targets
`lyon/archive/3647/2022/a.csv.csv`, while the claimed
`{filename_without_compression_suffix}` target is
`lyon/archive/3647/2022/a.csv.gz.csv`. -/
theorem archive_target_not_suffix_strip :
    archive_key (str "lyon/3647/2022/a.csv.gz.csv.gz") (str "lyon") (str "3647")
        (str "2022") = str "lyon/archive/3647/2022/a.csv.csv" ∧
    str "lyon" ++ str "/archive/" ++ str "3647" ++ str "/" ++ str "2022" ++ str "/" ++
        stripCompressionSuffix (str "a.csv.gz.csv.gz") =
      str "lyon/archive/3647/2022/a.csv.gz.csv" ∧
    str "lyon/archive/3647/2022/a.csv.csv" ≠ str "lyon/archive/3647/2022/a.csv.gz.csv" :=
  ⟨by decide, by decide, by decide⟩

/-- C9 (amended): for a source key `{city}/{location_id}/{year}/{filename}`
whose filename contains no slash and contains `.csv.gz` only as its suffix
(if at all — the code's `replace` rewrites every occurrence, so other
filenames diverge from suffix-stripping), the computed archive target is
exactly
`{city}/archive/{location_id}/{year}/{filename_without_compression_suffix}`
and the wide target is exactly
`{city}/wide/{location_id}/{year}/{filename_without_compression_suffix}`;
moreover on a run in which every step succeeds, the two transfer-primitive
calls target exactly those two keys, in that order. -/
theorem archive_wide_target_keys (env : Env) (file city lid yr fname : Str) (st : St)
    (hfile : file = city ++ str "/" ++ lid ++ str "/" ++ yr ++ str "/" ++ fname)
    (hsl : ('/' : Char) ∉ fname)
    (honly : ∀ i, i < fname.length →
      patAt (str ".csv.gz") fname i = true → i + 7 = fname.length) :
    archive_key file city lid yr =
      city ++ str "/archive/" ++ lid ++ str "/" ++ yr ++ str "/" ++
        stripCompressionSuffix fname ∧
    wide_key file city lid yr =
      city ++ str "/wide/" ++ lid ++ str "/" ++ yr ++ str "/" ++
        stripCompressionSuffix fname ∧
    ((pyEndsWith file (str "csv.gz") = true ∨
        (pyEndsWith file (str "csv.gz") = false ∧ pyEndsWith file (str ".csv") = true)) →
      stepFails (pyEndsWith file (str "csv.gz")) env = false →
      (transform_csv env file city lid yr st).uploadCalls =
        st.uploadCalls ++ [archive_key file city lid yr, wide_key file city lid yr]) := by
  have hbase : basename file = fname := by
    rw [hfile, show city ++ str "/" ++ lid ++ str "/" ++ yr ++ str "/" ++ fname
        = (city ++ str "/" ++ lid ++ str "/" ++ yr) ++ ('/' :: fname) from by
      simp [str, List.append_assoc]]
    exact basename_of_append _ _ hsl
  have hfn : file_name_csv file = stripCompressionSuffix fname := by
    rw [file_name_csv, hbase, replaceAll_eq_strip fname honly]
  have hstrip : ('/' : Char) ∉ stripCompressionSuffix fname := strip_no_slash fname hsl
  refine ⟨?_, ?_, ?_⟩
  · rw [archive_key, hfn, pathJoin_no_slash _ _ hstrip]
  · rw [wide_key, hfn, pathJoin_no_slash _ _ hstrip]
  · intro hbr hok
    rcases hbr with h1 | ⟨h1, h2⟩
    · rw [h1] at hok
      revert hok
      simp only [stepFails]
      simp only [Bool.or_eq_false_iff, Bool.not_eq_false', Bool.and_eq_false_iff,
        decide_eq_false_iff_not]
      intro hok
      obtain ⟨⟨⟨⟨⟨⟨hd, hg⟩, hr⟩, h0⟩, hd1⟩, hp⟩, hd2⟩ := hok
      have hg2 : env.gunzipOk = true := by tauto
      simp [transform_csv, h1, gzBody, hd, hg2, hr, h0, hd1, hp, hd2,
        upload_with_retry_uploadCalls]
    · rw [h1] at hok
      revert hok
      simp only [stepFails]
      simp only [Bool.or_eq_false_iff, Bool.not_eq_false', Bool.and_eq_false_iff,
        decide_eq_false_iff_not]
      intro hok
      obtain ⟨⟨⟨⟨⟨⟨hd, hg⟩, hr⟩, h0⟩, hd1⟩, hp⟩, hd2⟩ := hok
      simp [transform_csv, h1, h2, csvBody, hd, hr, h0, hd1, hp, hd2,
        upload_with_retry_uploadCalls]

/-- Witness for C9 at `lyon/3647/2022/location-3647-20220101.csv.gz`. -/
theorem archive_wide_target_keys_witness :
    archive_key (str "lyon/3647/2022/location-3647-20220101.csv.gz") (str "lyon")
        (str "3647") (str "2022") =
      str "lyon" ++ str "/archive/" ++ str "3647" ++ str "/" ++ str "2022" ++ str "/" ++
        stripCompressionSuffix (str "location-3647-20220101.csv.gz") ∧
    wide_key (str "lyon/3647/2022/location-3647-20220101.csv.gz") (str "lyon")
        (str "3647") (str "2022") =
      str "lyon" ++ str "/wide/" ++ str "3647" ++ str "/" ++ str "2022" ++ str "/" ++
        stripCompressionSuffix (str "location-3647-20220101.csv.gz") ∧
    (transform_csv envOk (str "lyon/3647/2022/location-3647-20220101.csv.gz") (str "lyon")
        (str "3647") (str "2022") st0).uploadCalls =
      st0.uploadCalls ++
        [archive_key (str "lyon/3647/2022/location-3647-20220101.csv.gz") (str "lyon")
          (str "3647") (str "2022"),
         wide_key (str "lyon/3647/2022/location-3647-20220101.csv.gz") (str "lyon")
          (str "3647") (str "2022")] := by
  have h := archive_wide_target_keys envOk
    (str "lyon/3647/2022/location-3647-20220101.csv.gz") (str "lyon") (str "3647")
    (str "2022") (str "location-3647-20220101.csv.gz") st0 (by decide) (by decide)
    (by decide)
  exact ⟨h.1, h.2.1, h.2.2 (Or.inl (by decide)) (by decide)⟩

/-- Every `transform_csv` invocation records exactly its own arguments in the
call trace, whatever the environment does. -/
theorem transform_csv_calls (env : Env) (file city lid yr : Str) (st : St) :
    (transform_csv env file city lid yr st).calls = st.calls ++ [(file, city, lid, yr)] := by
  by_cases h1 : pyEndsWith file (str "csv.gz") = true
  · by_cases hd : env.downloadOk = false
    · simp [transform_csv, h1, gzBody, hd, log_failure]
    by_cases hg : env.gunzipOk = false
    · simp [transform_csv, h1, gzBody, hd, hg, log_failure]
    by_cases hr : env.readOk = false
    · simp [transform_csv, h1, gzBody, hd, hg, hr, log_failure]
    by_cases h0 : env.rows = 0
    · simp [transform_csv, h1, gzBody, hd, hg, hr, h0, log_failure]
    by_cases hd1 : env.delete1Ok = false
    · simp [transform_csv, h1, gzBody, hd, hg, hr, h0, hd1, log_failure,
        upload_with_retry_calls]
    by_cases hp : env.pivotOk = false
    · simp [transform_csv, h1, gzBody, hd, hg, hr, h0, hd1, hp, log_failure,
        upload_with_retry_calls]
    by_cases hd2 : env.delete2Ok = false
    · simp [transform_csv, h1, gzBody, hd, hg, hr, h0, hd1, hp, hd2, log_failure,
        upload_with_retry_calls]
    · simp [transform_csv, h1, gzBody, hd, hg, hr, h0, hd1, hp, hd2, log_failure,
        upload_with_retry_calls]
  · simp only [Bool.not_eq_true] at h1
    by_cases h2 : pyEndsWith file (str ".csv") = true
    · by_cases hd : env.downloadOk = false
      · simp [transform_csv, h1, h2, csvBody, hd, log_failure]
      by_cases hr : env.readOk = false
      · simp [transform_csv, h1, h2, csvBody, hd, hr, log_failure]
      by_cases h0 : env.rows = 0
      · simp [transform_csv, h1, h2, csvBody, hd, hr, h0, log_failure]
      by_cases hd1 : env.delete1Ok = false
      · simp [transform_csv, h1, h2, csvBody, hd, hr, h0, hd1, log_failure,
          upload_with_retry_calls]
      by_cases hp : env.pivotOk = false
      · simp [transform_csv, h1, h2, csvBody, hd, hr, h0, hd1, hp, log_failure,
          upload_with_retry_calls]
      by_cases hd2 : env.delete2Ok = false
      · simp [transform_csv, h1, h2, csvBody, hd, hr, h0, hd1, hp, hd2, log_failure,
          upload_with_retry_calls]
      · simp [transform_csv, h1, h2, csvBody, hd, hr, h0, hd1, hp, hd2, log_failure,
          upload_with_retry_calls]
    · simp only [Bool.not_eq_true] at h2
      simp [transform_csv, h1, h2]

theorem splitOnChar_ne_nil (sep : Char) (t : Str) : splitOnChar sep t ≠ [] := by
  cases t with
  | nil => simp [splitOnChar]
  | cons c cs =>
    cases hsp : splitOnChar sep cs with
    | nil => simp [splitOnChar, hsp]
    | cons g gs =>
      simp only [splitOnChar, hsp]
      split <;> simp

theorem splitOnChar_no_sep (sep : Char) (a : Str) (h : sep ∉ a) :
    splitOnChar sep a = [a] := by
  induction a with
  | nil => rfl
  | cons c cs ih =>
    simp only [List.mem_cons, not_or] at h
    have hc : ¬ c = sep := fun e => h.1 e.symm
    simp [splitOnChar, ih h.2, hc]

theorem splitOnChar_append (sep : Char) (a t : Str) (h : sep ∉ a) :
    splitOnChar sep (a ++ sep :: t) = a :: splitOnChar sep t := by
  induction a with
  | nil =>
    simp only [List.nil_append, splitOnChar]
    cases ht : splitOnChar sep t with
    | nil => exact absurd ht (splitOnChar_ne_nil sep t)
    | cons g gs => simp
  | cons c cs ih =>
    simp only [List.mem_cons, not_or] at h
    have hc : ¬ c = sep := fun e => h.1 e.symm
    simp only [List.cons_append, splitOnChar, List.append_eq, ih h.2, hc, if_false]

theorem recoverParts_of_form (p lid rest : Str)
    (hp : ('-' : Char) ∉ p) (hl : ('-' : Char) ∉ lid) (hrest : ('-' : Char) ∉ rest) :
    recoverParts (p ++ str "-" ++ lid ++ str "-" ++ rest) = some (lid, rest.take 4) := by
  have hkey : p ++ str "-" ++ lid ++ str "-" ++ rest = p ++ '-' :: (lid ++ '-' :: rest) := by
    simp [str, List.append_assoc]
  rw [recoverParts, hkey, splitOnChar_append '-' p _ hp, splitOnChar_append '-' lid _ hl,
    splitOnChar_no_sep '-' rest hrest]

/-- C6 (amended): the retry driver splits the whole ledger key on `'-'` and
re-invokes the transform unit with the second dash-component as location_id
and the first four characters of the third dash-component as year (and the
hard-coded city "lyon").  For keys whose dash structure is
`{dashfree}-{location_id}-{YYYYMMDD...}` — as in the real OpenAQ filenames
`location-3647-20220101.csv.gz` under a dash-free path — these coincide with
the key's true location_id and year; for other filenames (e.g. the spec's
scenario `loc3647-2022-01.csv.gz`) they do not. -/
theorem retry_reinvokes_with_dash_parsed_parts (envOf : Str → Env) (p lid rest : Str)
    (st : St)
    (hp : ('-' : Char) ∉ p) (hl : ('-' : Char) ∉ lid) (hrest : ('-' : Char) ∉ rest)
    (hstrip : pyStrip (p ++ str "-" ++ lid ++ str "-" ++ rest) =
      p ++ str "-" ++ lid ++ str "-" ++ rest)
    (hled : st.ledger = [p ++ str "-" ++ lid ++ str "-" ++ rest])
    (hex : st.ledgerExists = true) :
    ∃ stFin, retry_failed_files envOf st = Except.ok stFin ∧
      stFin.calls = st.calls ++
        [(p ++ str "-" ++ lid ++ str "-" ++ rest, str "lyon", lid, rest.take 4)] := by
  have hpart := recoverParts_of_form p lid rest hp hl hrest
  simp only [List.append_assoc] at hstrip hled hpart
  simp [retry_failed_files, hex, hled, hstrip, retryFold, hpart, retryAttempts,
    transform_csv_calls]

/-- Witness for C6 (amended) at the ledger key
`lyon/3647/2022/location-3647-20220101.csv.gz`: the driver re-invokes the
unit with location_id `"3647"` and year `"2022"`. -/
theorem retry_reinvokes_witness :
    ∃ stFin, retry_failed_files (fun _ => envOk)
        { st0 with ledger := [str "lyon/3647/2022/location-3647-20220101.csv.gz"],
                   ledgerExists := true } = Except.ok stFin ∧
      stFin.calls =
        ({ st0 with ledger := [str "lyon/3647/2022/location-3647-20220101.csv.gz"],
                    ledgerExists := true } : St).calls ++
          [(str "lyon/3647/2022/location" ++ str "-" ++ str "3647" ++ str "-" ++
              str "20220101.csv.gz",
            str "lyon", str "3647", (str "20220101.csv.gz").take 4)] :=
  retry_reinvokes_with_dash_parsed_parts (fun _ => envOk) (str "lyon/3647/2022/location")
    (str "3647") (str "20220101.csv.gz")
    { st0 with ledger := [str "lyon/3647/2022/location-3647-20220101.csv.gz"],
               ledgerExists := true }
    (by decide) (by decide) (by decide) (by decide) (by decide) rfl
